import Mathlib

/-!
Verification of the multi-round tool-orchestration loop of
`backend/ai_generator.py` (class `AIGenerator`).

The Python code drives a bounded conversation with an external
language-model collaborator (`self.client.messages.create`) and an
external tool executor (`tool_manager.execute_tool`).  Both
collaborators are modelled as explicit function arguments that either
return a value or fail (`Except`), mirroring a Python call that either
returns or raises.  The orchestrator itself is embedded as a pure,
structurally recursive function; in addition to the answer string it
produces a trace recording every request sent to the model collaborator
and the tool results of every processed tool round, so that call counts
and request contents can be stated as theorems.
-/

namespace RagOrch

/-- Keyword arguments of one tool call (`content_block.input`,
unpacked with `**` into `execute_tool`). -/
abbrev ToolInput := List (String × String)

/-- The text of a raised Python exception (`str(e)`). -/
abbrev Err := String

/-- An opaque tool schema dict, passed through unchanged to the API. -/
abbrev ToolSchema := String

/-- A tool-use request block emitted by the model
(`content_block.id`, `.name`, `.input`). -/
structure ToolUseData where
  id : String
  name : String
  input : ToolInput
deriving DecidableEq

/-- One content block of a model response: either a text block
(carrying `.text`) or a tool-use block.  `block.type` distinguishes
them, as in the anthropic SDK types. -/
inductive ContentBlock where
  | text (text : String)
  | tool_use (data : ToolUseData)
deriving DecidableEq

/-- The `.type` attribute tested by `_process_tool_round`. -/
def ContentBlock.type : ContentBlock → String
  | .text _ => "text"
  | .tool_use _ => "tool_use"

/-- A model response: `response.stop_reason` and `response.content`. -/
structure ModelResponse where
  stop_reason : String
  content : List ContentBlock
deriving DecidableEq

/-- One `tool_result` dict built by `_process_tool_round`
(`type` is always the literal string "tool_result"). -/
structure ToolResult where
  type : String
  tool_use_id : String
  content : String
deriving DecidableEq

/-- The `content` field of a transcript message: the plain-text user
query, the content-block list of an assistant response, or a list of tool
results. -/
inductive MessageContent where
  | text (s : String)
  | blocks (blocks : List ContentBlock)
  | tool_results (results : List ToolResult)
deriving DecidableEq

/-- One transcript message `{"role": ..., "content": ...}`. -/
structure Message where
  role : String
  content : MessageContent
deriving DecidableEq

/-- The request record assembled by `_make_api_call` and handed to
`self.client.messages.create`.  `tools = none` / `tool_choice = none`
mean the corresponding keys are absent from `api_params`. -/
structure ApiRequest where
  model : String
  temperature : Nat
  max_tokens : Nat
  messages : List Message
  system : String
  tools : Option (List ToolSchema)
  tool_choice : Option String
deriving DecidableEq

/-- The tool executor collaborator: `tool_manager.execute_tool(name,
**kwargs)` returns a result string or raises. -/
structure ToolManager where
  execute_tool : String → ToolInput → Except Err String

/-- The model collaborator: given the number of calls already made in
this query and the request, returns a response or raises. -/
abbrev Client := Nat → ApiRequest → Except Err ModelResponse

/-- Python truthiness of an `Optional[str]`: `None` and `""` are falsy
(used by `_build_system_content`). -/
def strTruthy : Option String → Bool
  | none => false
  | some s => !(s == "")

/-- Python truthiness of an `Optional[List]`: `None` and `[]` are falsy
(used by the `if tools:` guard of `_make_api_call`). -/
def listTruthy {α : Type} : Option (List α) → Bool
  | none => false
  | some l => !l.isEmpty

/-- The orchestrator object: only `self.model` matters to the embedded
control flow (`self.client` is the explicit `Client` argument). -/
structure AIGenerator where
  model : String

/-- The static system prompt (class attribute `SYSTEM_PROMPT`). -/
def AIGenerator.SYSTEM_PROMPT : String :=
  " You are an AI assistant specialized in course materials and educational content with access to comprehensive tools for course information.\n\nAvailable Tools:\n- **search_course_content**: Search within course materials for specific content\n- **get_course_outline**: Get course title, course link, and complete lesson list with lesson numbers and titles\n\nMulti-Round Tool Usage:\n- You can make UP TO 2 rounds of tool calls per query\n- Use multiple rounds when initial tool results suggest additional searches would be valuable\n- Examples of multi-round usage:\n  * Round 1: Search for general topic → Round 2: Search for specific details found in Round 1\n  * Round 1: Get course outline → Round 2: Search specific lessons mentioned\n  * Round 1: Search one course → Round 2: Search related course for comparison\n\nTool Usage Guidelines:\n- **Round 1**: Use tools to get initial information\n- **Round 2**: Refine search or gather additional context if needed\n- **Termination**: When you have sufficient information, provide final answer without additional tools\n- Synthesize information from ALL tool calls when multiple rounds are used\n- If no relevant information is found across all tool attempts, state this clearly\n\nResponse Protocol:\n- **General knowledge questions**: Answer using existing knowledge without using tools\n- **Course-specific content questions**: Use tools strategically (1-2 rounds as needed)\n- **Course outline/structure questions**: Use get_course_outline tool, then search specific content if needed\n- **No meta-commentary**:\n - Provide direct answers only — no reasoning process, tool explanations, or round analysis\n - Do not mention \"based on the tool results\" or \"using tools\"\n\nAll responses must be:\n1. **Brief, Concise and focused** - Get to the point quickly\n2. **Educational** - Maintain instructional value\n3. **Clear** - Use accessible language\n4. **Example-supported** - Include relevant examples when they aid understanding\n5. **Comprehensive** - Integrate information from multiple tool rounds when used\nProvide only the direct answer to what was asked.\n"

/-- Embeds `_build_system_content`: the fixed prompt, with the history text
appended after a fixed separator when the history is truthy. -/
def AIGenerator.build_system_content (conversation_history : Option String) : String :=
  if strTruthy conversation_history then
    AIGenerator.SYSTEM_PROMPT ++ "\n\nPrevious conversation:\n" ++ conversation_history.getD ""
  else
    AIGenerator.SYSTEM_PROMPT

/-- The `api_params` record that `_make_api_call` builds from
`self.base_params` (model, temperature 0, max_tokens 800), the
transcript and the system content; the `tools` and `tool_choice` keys
are added only when `tools` is truthy. -/
def AIGenerator.make_api_params (g : AIGenerator) (messages : List Message)
    (system_content : String) (tools : Option (List ToolSchema)) : ApiRequest :=
  { model := g.model
    temperature := 0
    max_tokens := 800
    messages := messages
    system := system_content
    tools := if listTruthy tools then tools else none
    tool_choice := if listTruthy tools then some "auto" else none }

/-- Embeds the access `response.content[0].text`: fails like the Python attribute access
when the content list is empty (IndexError) or the first block is a
tool-use block, which has no `text` attribute (AttributeError). -/
def firstText (response : ModelResponse) : Except Err String :=
  match response.content with
  | [] => Except.error "list index out of range"
  | b :: _ =>
    match b with
    | ContentBlock.text t => Except.ok t
    | ContentBlock.tool_use _ => Except.error "ToolUseBlock object has no attribute text"

/-- The tool-use blocks of a content list, in emission order (the
blocks selected by the `if content_block.type == "tool_use"` filter of
`_process_tool_round`). -/
def toolUses (content : List ContentBlock) : List ToolUseData :=
  content.filterMap fun b =>
    match b with
    | ContentBlock.tool_use d => some d
    | _ => none

/-- One tool execution inside `_process_tool_round`: its per-call
try/except converts a raised exception into the failure text of the
result, instead of propagating it. -/
def executeOne (tool_manager : ToolManager) (d : ToolUseData) : ToolResult :=
  { type := "tool_result"
    tool_use_id := d.id
    content :=
      match tool_manager.execute_tool d.name d.input with
      | Except.ok tool_result => tool_result
      | Except.error e => "Tool execution failed: " ++ e }

/-- The `tool_results` list collected by `_process_tool_round`: one
result per tool-use block, in block order. -/
def toolResultsOf (tool_manager : ToolManager) (content : List ContentBlock) : List ToolResult :=
  (toolUses content).map (executeOne tool_manager)

/-- Embeds `_process_tool_round`: append the assistant content as an
assistant message, then, when the collected results are nonempty
(`if tool_results:`), one user message bundling all of them. -/
def AIGenerator.process_tool_round (messages : List Message) (response : ModelResponse)
    (tool_manager : ToolManager) : List Message :=
  let updated_messages := messages ++ [{ role := "assistant", content := MessageContent.blocks response.content }]
  let tool_results := toolResultsOf tool_manager response.content
  if tool_results.isEmpty then updated_messages
  else updated_messages ++ [{ role := "user", content := MessageContent.tool_results tool_results }]

/-- Prefix of the apology returned when a round of the main loop
raises (line 100 of the source). -/
def APOLOGY_PROCESSING : String :=
  "I apologize, but I encountered a technical issue while processing your request: "

/-- Prefix of the apology returned when the final synthesis call
raises (line 107 of the source). -/
def APOLOGY_FINAL : String :=
  "I apologize, but I encountered a technical issue while providing my final response: "

/-- The apology wording shared by both catch blocks. -/
def APOLOGY_PHRASE : String :=
  "I apologize, but I encountered a technical issue while "

/-- Execution trace: every request handed to the model collaborator, in
order, and the tool-result list of every processed tool round. -/
structure Trace where
  calls : List ApiRequest
  toolRounds : List (List ToolResult)
deriving DecidableEq

/-- The `for round_num in range(1, max_rounds + 1)` loop of
`generate_response` followed by the final synthesis call.  `rounds` is
the remaining portion of the range, `ncalls` the number of model calls
already made (indexing the collaborator).  Returns the answer string
together with the trace of this suffix of the execution. -/
def AIGenerator.generateLoop (g : AIGenerator) (client : Client)
    (tools : Option (List ToolSchema)) (tool_manager : Option ToolManager)
    (system_content : String) (max_rounds : Nat) :
    List Nat → List Message → Nat → String × Trace
  | [], messages, ncalls =>
    let req := g.make_api_params messages system_content none
    match client ncalls req with
    | Except.ok final_response =>
      match firstText final_response with
      | Except.ok t => (t, ⟨[req], []⟩)
      | Except.error e => (APOLOGY_FINAL ++ e, ⟨[req], []⟩)
    | Except.error e => (APOLOGY_FINAL ++ e, ⟨[req], []⟩)
  | round_num :: rest, messages, ncalls =>
    let include_tools := round_num < max_rounds
    let req := g.make_api_params messages system_content (if include_tools then tools else none)
    match client ncalls req with
    | Except.error e => (APOLOGY_PROCESSING ++ e, ⟨[req], []⟩)
    | Except.ok response =>
      match tool_manager with
      | none =>
        match firstText response with
        | Except.ok t => (t, ⟨[req], []⟩)
        | Except.error e => (APOLOGY_PROCESSING ++ e, ⟨[req], []⟩)
      | some tm =>
        if response.stop_reason = "tool_use" then
          let tool_results := toolResultsOf tm response.content
          let messages2 := AIGenerator.process_tool_round messages response tm
          let p := AIGenerator.generateLoop g client tools tool_manager system_content
            max_rounds rest messages2 (ncalls + 1)
          (p.1, ⟨req :: p.2.calls, tool_results :: p.2.toolRounds⟩)
        else
          match firstText response with
          | Except.ok t => (t, ⟨[req], []⟩)
          | Except.error e => (APOLOGY_PROCESSING ++ e, ⟨[req], []⟩)

/-- Embeds `generate_response`, instrumented with the execution trace. -/
def AIGenerator.generate_response_traced (g : AIGenerator) (client : Client)
    (query : String) (conversation_history : Option String)
    (tools : Option (List ToolSchema)) (tool_manager : Option ToolManager)
    (max_rounds : Nat) : String × Trace :=
  let system_content := AIGenerator.build_system_content conversation_history
  let messages : List Message := [{ role := "user", content := MessageContent.text query }]
  AIGenerator.generateLoop g client tools tool_manager system_content max_rounds
    (List.range' 1 max_rounds) messages 0

/-- Embeds `generate_response`: the answer string alone. -/
def AIGenerator.generate_response (g : AIGenerator) (client : Client)
    (query : String) (conversation_history : Option String)
    (tools : Option (List ToolSchema)) (tool_manager : Option ToolManager)
    (max_rounds : Nat) : String :=
  (AIGenerator.generate_response_traced g client query conversation_history tools
    tool_manager max_rounds).1

/-- Holds when `sub` occurs as a contiguous substring of `s`. -/
def containsStr (s sub : String) : Prop := ∃ p q, s = p ++ sub ++ q

/-! ### Helper lemmas about `_process_tool_round` -/

lemma toolResultsOf_length (tm : ToolManager) (cs : List ContentBlock) :
    (toolResultsOf tm cs).length = (toolUses cs).length := by
  simp [toolResultsOf]

lemma toolResultsOf_ids (tm : ToolManager) (cs : List ContentBlock) :
    (toolResultsOf tm cs).map ToolResult.tool_use_id = (toolUses cs).map ToolUseData.id := by
  simp only [toolResultsOf, List.map_map]
  apply List.map_congr_left
  intro d _
  rfl

lemma process_tool_round_eq_of_ne_nil (messages : List Message) (response : ModelResponse)
    (tm : ToolManager) (h : toolUses response.content ≠ []) :
    AIGenerator.process_tool_round messages response tm =
      messages ++
        [{ role := "assistant", content := MessageContent.blocks response.content },
         { role := "user",
           content := MessageContent.tool_results (toolResultsOf tm response.content) }] := by
  rcases h2 : toolUses response.content with _ | ⟨d, ds⟩
  · exact absurd h2 h
  · simp [AIGenerator.process_tool_round, toolResultsOf, h2]

/-! ### Theorems for the claims -/

/-- C3: for a round whose model response contains k ≥ 1 tool-use request
blocks, the user message appended after tool execution contains exactly
k tool-result entries, the `tool_use_id` of each entry is the id of the
request in the same position, and the entries appear in the request
order, all bundled inside one user message. -/
theorem C3_tool_result_correlation (messages : List Message) (response : ModelResponse)
    (tm : ToolManager) (h : toolUses response.content ≠ []) :
    AIGenerator.process_tool_round messages response tm =
      messages ++
        [{ role := "assistant", content := MessageContent.blocks response.content },
         { role := "user",
           content := MessageContent.tool_results (toolResultsOf tm response.content) }] ∧
    (toolResultsOf tm response.content).length = (toolUses response.content).length ∧
    (toolResultsOf tm response.content).map ToolResult.tool_use_id =
      (toolUses response.content).map ToolUseData.id :=
  ⟨process_tool_round_eq_of_ne_nil messages response tm h,
   toolResultsOf_length tm response.content,
   toolResultsOf_ids tm response.content⟩

/-- A tool manager whose executions always succeed, for witnesses. -/
def tmOk : ToolManager := ⟨fun _ _ => Except.ok "ok-result"⟩

/-- A two-request tool-use response, for witnesses. -/
def respTwoTools : ModelResponse :=
  ⟨"tool_use",
   [ContentBlock.tool_use ⟨"id1", "tool1", [("q", "a")]⟩,
    ContentBlock.tool_use ⟨"id2", "tool2", [("q", "b")]⟩]⟩

/-- Witness for C3 at a concrete two-request round. -/
theorem C3_witness :
    toolUses respTwoTools.content ≠ [] ∧
    (AIGenerator.process_tool_round [] respTwoTools tmOk =
      [] ++
        [{ role := "assistant", content := MessageContent.blocks respTwoTools.content },
         { role := "user",
           content := MessageContent.tool_results (toolResultsOf tmOk respTwoTools.content) }] ∧
    (toolResultsOf tmOk respTwoTools.content).length = (toolUses respTwoTools.content).length ∧
    (toolResultsOf tmOk respTwoTools.content).map ToolResult.tool_use_id =
      (toolUses respTwoTools.content).map ToolUseData.id) :=
  ⟨by decide, C3_tool_result_correlation [] respTwoTools tmOk (by decide)⟩

/-- C5: if executing one tool call of a round raises, the other
calls still execute (their results are whatever the executor returns
for them), the result content of the failing call is the failure marker
followed by the error text, and the round still appends the
assistant/tool-result messages and proceeds. -/
theorem C5_tool_error_containment (messages : List Message) (sr : String)
    (cs : List ContentBlock) (tm : ToolManager) (i : Nat) (e : Err)
    (hi : i < (toolUses cs).length)
    (herr : tm.execute_tool ((toolUses cs).get ⟨i, hi⟩).name
      ((toolUses cs).get ⟨i, hi⟩).input = Except.error e) :
    (toolResultsOf tm cs).length = (toolUses cs).length ∧
    ((toolResultsOf tm cs)[i]?).map ToolResult.content =
      some ("Tool execution failed: " ++ e) ∧
    (∀ (j : Nat) (hj : j < (toolUses cs).length) (r : String),
      tm.execute_tool ((toolUses cs).get ⟨j, hj⟩).name
        ((toolUses cs).get ⟨j, hj⟩).input = Except.ok r →
      ((toolResultsOf tm cs)[j]?).map ToolResult.content = some r) ∧
    AIGenerator.process_tool_round messages ⟨sr, cs⟩ tm =
      messages ++
        [{ role := "assistant", content := MessageContent.blocks cs },
         { role := "user", content := MessageContent.tool_results (toolResultsOf tm cs) }] := by
  refine ⟨toolResultsOf_length tm cs, ?_, ?_, ?_⟩
  · have : (toolUses cs)[i]? = some ((toolUses cs).get ⟨i, hi⟩) := List.getElem?_eq_getElem hi
    simp only [List.get_eq_getElem] at herr
    simp [toolResultsOf, List.getElem?_map, this, executeOne, herr]
  · intro j hj r hok
    have : (toolUses cs)[j]? = some ((toolUses cs).get ⟨j, hj⟩) := List.getElem?_eq_getElem hj
    simp only [List.get_eq_getElem] at hok
    simp [toolResultsOf, List.getElem?_map, this, executeOne, hok]
  · apply process_tool_round_eq_of_ne_nil
    intro hnil
    rw [hnil] at hi
    exact absurd hi (by simp)

/-- A tool manager failing exactly on the tool named `bad`, for
witnesses. -/
def tmOneBad : ToolManager :=
  ⟨fun name _ => if name == "bad" then Except.error "boom" else Except.ok "good-result"⟩

/-- Content blocks with a succeeding first call and a failing second
call, for witnesses. -/
def csOneBad : List ContentBlock :=
  [ContentBlock.tool_use ⟨"id1", "fine", []⟩, ContentBlock.tool_use ⟨"id2", "bad", []⟩]

/-- Witness for C5: in a two-call round whose second call raises, the
first still succeeds and the result of the second carries the marker. -/
theorem C5_witness :
    (1 < (toolUses csOneBad).length) ∧
    ((toolResultsOf tmOneBad csOneBad).length = (toolUses csOneBad).length ∧
    ((toolResultsOf tmOneBad csOneBad)[1]?).map ToolResult.content =
      some ("Tool execution failed: " ++ "boom") ∧
    (∀ (j : Nat) (hj : j < (toolUses csOneBad).length) (r : String),
      tmOneBad.execute_tool ((toolUses csOneBad).get ⟨j, hj⟩).name
        ((toolUses csOneBad).get ⟨j, hj⟩).input = Except.ok r →
      ((toolResultsOf tmOneBad csOneBad)[j]?).map ToolResult.content = some r) ∧
    AIGenerator.process_tool_round [] ⟨"tool_use", csOneBad⟩ tmOneBad =
      [] ++
        [{ role := "assistant", content := MessageContent.blocks csOneBad },
         { role := "user",
           content := MessageContent.tool_results (toolResultsOf tmOneBad csOneBad) }]) :=
  ⟨by decide,
   C5_tool_error_containment [] "tool_use" csOneBad tmOneBad 1 "boom" (by decide) (by rfl)⟩

/-! ### Substring helpers -/

lemma containsStr_append_right (a b : String) : containsStr (a ++ b) b :=
  ⟨a, "", by simp⟩

lemma containsStr_append_of_head_eq (a b t : String) (h : a = t ++ b) (c : String) :
    containsStr (a ++ c) t :=
  ⟨"", b ++ c, by simp [h, String.append_assoc]⟩

/-- C6: if the round-1 model response has a stop reason other than
"tool_use", `generate_response` returns the text of that response at once:
one model call is made and no tool round is processed. -/
theorem C6_early_termination (g : AIGenerator) (client : Client) (query : String)
    (ch : Option String) (tools : Option (List ToolSchema)) (tm : Option ToolManager)
    (N : Nat) (resp : ModelResponse) (t : String) (hN : 1 ≤ N)
    (hr : ∀ req, client 0 req = Except.ok resp)
    (hstop : resp.stop_reason ≠ "tool_use")
    (htext : firstText resp = Except.ok t) :
    (g.generate_response_traced client query ch tools tm N).1 = t ∧
    (g.generate_response_traced client query ch tools tm N).2.calls.length = 1 ∧
    (g.generate_response_traced client query ch tools tm N).2.toolRounds = [] := by
  obtain ⟨M, rfl⟩ : ∃ M, N = M + 1 := ⟨N - 1, (Nat.succ_pred_eq_of_pos hN).symm⟩
  rw [AIGenerator.generate_response_traced, List.range'_succ]
  rcases tm with _ | tmgr <;>
    simp [AIGenerator.generateLoop, hr, hstop, htext]

/-- Witness for C6: a non-tool response at round 1 with two rounds
configured. -/
theorem C6_witness :
    ((AIGenerator.mk "m").generate_response_traced
        (fun _ _ => Except.ok ⟨"end_turn", [ContentBlock.text "plain answer"]⟩)
        "q" none (some ["t"]) (some tmOk) 2).1 = "plain answer" ∧
    ((AIGenerator.mk "m").generate_response_traced
        (fun _ _ => Except.ok ⟨"end_turn", [ContentBlock.text "plain answer"]⟩)
        "q" none (some ["t"]) (some tmOk) 2).2.calls.length = 1 ∧
    ((AIGenerator.mk "m").generate_response_traced
        (fun _ _ => Except.ok ⟨"end_turn", [ContentBlock.text "plain answer"]⟩)
        "q" none (some ["t"]) (some tmOk) 2).2.toolRounds = [] :=
  C6_early_termination (AIGenerator.mk "m") _ "q" none (some ["t"]) (some tmOk) 2
    ⟨"end_turn", [ContentBlock.text "plain answer"]⟩ "plain answer"
    (by decide) (fun _ => rfl) (by decide) rfl

/-- C7: with no tool executor supplied (`tool_manager = None`), a
round-1 response whose stop reason is "tool_use" is still returned as
raw text at once, with one model call and no tool round processed. -/
theorem C7_no_tool_manager (g : AIGenerator) (client : Client) (query : String)
    (ch : Option String) (tools : Option (List ToolSchema))
    (N : Nat) (resp : ModelResponse) (t : String) (hN : 1 ≤ N)
    (hr : ∀ req, client 0 req = Except.ok resp)
    (hstop : resp.stop_reason = "tool_use")
    (htext : firstText resp = Except.ok t) :
    (g.generate_response_traced client query ch tools none N).1 = t ∧
    (g.generate_response_traced client query ch tools none N).2.calls.length = 1 ∧
    (g.generate_response_traced client query ch tools none N).2.toolRounds = [] := by
  obtain ⟨M, rfl⟩ : ∃ M, N = M + 1 := ⟨N - 1, (Nat.succ_pred_eq_of_pos hN).symm⟩
  rw [AIGenerator.generate_response_traced, List.range'_succ]
  simp [AIGenerator.generateLoop, hr, htext]

/-- Witness for C7: a tool-use response with no tool manager. -/
theorem C7_witness :
    ((AIGenerator.mk "m").generate_response_traced
        (fun _ _ => Except.ok ⟨"tool_use", [ContentBlock.text "raw text"]⟩)
        "q" none (some ["t"]) none 2).1 = "raw text" ∧
    ((AIGenerator.mk "m").generate_response_traced
        (fun _ _ => Except.ok ⟨"tool_use", [ContentBlock.text "raw text"]⟩)
        "q" none (some ["t"]) none 2).2.calls.length = 1 ∧
    ((AIGenerator.mk "m").generate_response_traced
        (fun _ _ => Except.ok ⟨"tool_use", [ContentBlock.text "raw text"]⟩)
        "q" none (some ["t"]) none 2).2.toolRounds = [] :=
  C7_no_tool_manager (AIGenerator.mk "m") _ "q" none (some ["t"]) 2
    ⟨"tool_use", [ContentBlock.text "raw text"]⟩ "raw text"
    (by decide) (fun _ => rfl) rfl rfl

/-- C9: a round whose response says "tool_use" but contains no
tool-use block still appends the assistant message to the transcript,
appends no user tool-result message, records no tool executions for
the round, and continues the loop with the next round instead of
returning. -/
theorem C9_empty_tool_use_round (g : AIGenerator) (client : Client)
    (tools : Option (List ToolSchema)) (tm : ToolManager) (sc : String)
    (N round_num : Nat) (rest : List Nat) (ms : List Message) (nc : Nat)
    (resp : ModelResponse)
    (hr : ∀ req, client nc req = Except.ok resp)
    (hstop : resp.stop_reason = "tool_use")
    (hzero : toolUses resp.content = []) :
    (AIGenerator.generateLoop g client tools (some tm) sc N (round_num :: rest) ms nc).1 =
      (AIGenerator.generateLoop g client tools (some tm) sc N rest
        (ms ++ [{ role := "assistant", content := MessageContent.blocks resp.content }])
        (nc + 1)).1 ∧
    (AIGenerator.generateLoop g client tools (some tm) sc N (round_num :: rest) ms nc).2.calls =
      g.make_api_params ms sc (if round_num < N then tools else none) ::
        (AIGenerator.generateLoop g client tools (some tm) sc N rest
          (ms ++ [{ role := "assistant", content := MessageContent.blocks resp.content }])
          (nc + 1)).2.calls ∧
    (AIGenerator.generateLoop g client tools (some tm) sc N
        (round_num :: rest) ms nc).2.toolRounds =
      [] :: (AIGenerator.generateLoop g client tools (some tm) sc N rest
          (ms ++ [{ role := "assistant", content := MessageContent.blocks resp.content }])
          (nc + 1)).2.toolRounds := by
  simp [AIGenerator.generateLoop, hr, hstop, AIGenerator.process_tool_round,
    toolResultsOf, hzero]

/-- A tool-use response with only a text block (zero tool-use blocks),
for the C9 witness. -/
def respNoBlocks : ModelResponse := ⟨"tool_use", [ContentBlock.text "thinking"]⟩

/-- Witness for C9 at a concrete state: round 1 of 2, constant
collaborator. -/
theorem C9_witness :
    (AIGenerator.generateLoop (AIGenerator.mk "m") (fun _ _ => Except.ok respNoBlocks)
        (some ["t"]) (some tmOk) "sys" 2 [1, 2]
        [{ role := "user", content := MessageContent.text "q" }] 0).1 =
      (AIGenerator.generateLoop (AIGenerator.mk "m") (fun _ _ => Except.ok respNoBlocks)
        (some ["t"]) (some tmOk) "sys" 2 [2]
        ([{ role := "user", content := MessageContent.text "q" }] ++
          [{ role := "assistant", content := MessageContent.blocks respNoBlocks.content }])
        1).1 ∧
    (AIGenerator.generateLoop (AIGenerator.mk "m") (fun _ _ => Except.ok respNoBlocks)
        (some ["t"]) (some tmOk) "sys" 2 [1, 2]
        [{ role := "user", content := MessageContent.text "q" }] 0).2.calls =
      (AIGenerator.mk "m").make_api_params
          [{ role := "user", content := MessageContent.text "q" }] "sys"
          (if 1 < 2 then some ["t"] else none) ::
        (AIGenerator.generateLoop (AIGenerator.mk "m") (fun _ _ => Except.ok respNoBlocks)
          (some ["t"]) (some tmOk) "sys" 2 [2]
          ([{ role := "user", content := MessageContent.text "q" }] ++
            [{ role := "assistant", content := MessageContent.blocks respNoBlocks.content }])
          1).2.calls ∧
    (AIGenerator.generateLoop (AIGenerator.mk "m") (fun _ _ => Except.ok respNoBlocks)
        (some ["t"]) (some tmOk) "sys" 2 [1, 2]
        [{ role := "user", content := MessageContent.text "q" }] 0).2.toolRounds =
      [] :: (AIGenerator.generateLoop (AIGenerator.mk "m") (fun _ _ => Except.ok respNoBlocks)
          (some ["t"]) (some tmOk) "sys" 2 [2]
          ([{ role := "user", content := MessageContent.text "q" }] ++
            [{ role := "assistant", content := MessageContent.blocks respNoBlocks.content }])
          1).2.toolRounds :=
  C9_empty_tool_use_round (AIGenerator.mk "m") _ (some ["t"]) tmOk "sys" 2 1 [2]
    [{ role := "user", content := MessageContent.text "q" }] 0 respNoBlocks
    (fun _ => rfl) rfl (by decide)

/-- If, reaching some state of the loop, every earlier collaborator
call succeeded with a tool-use response and the `j`-th remaining call
raises `e`, the loop returns one of the two apology strings with `e`
appended (round apology when the failure is inside the loop, final
apology when it is the synthesis call). -/
lemma generateLoop_client_error (g : AIGenerator) (client : Client)
    (tools : Option (List ToolSchema)) (tm : ToolManager) (sc : String) (N : Nat)
    (e : Err) :
    ∀ (rs : List Nat) (ms : List Message) (nc j : Nat), j ≤ rs.length →
    (∀ n, n < nc + j → ∀ req, ∃ r, client n req = Except.ok r ∧ r.stop_reason = "tool_use") →
    (∀ req, client (nc + j) req = Except.error e) →
    (AIGenerator.generateLoop g client tools (some tm) sc N rs ms nc).1 =
        APOLOGY_PROCESSING ++ e ∨
    (AIGenerator.generateLoop g client tools (some tm) sc N rs ms nc).1 =
        APOLOGY_FINAL ++ e := by
  intro rs
  induction rs with
  | nil =>
    intro ms nc j hj _ herr
    have hj0 : j = 0 := by simpa using hj
    subst hj0
    simp only [Nat.add_zero] at herr
    right
    simp [AIGenerator.generateLoop, herr]
  | cons r rest ih =>
    intro ms nc j hj hok herr
    rcases j with _ | j
    · simp only [Nat.add_zero] at herr
      left
      simp [AIGenerator.generateLoop, herr]
    · obtain ⟨resp, hcr, hstop⟩ :=
        hok nc (by omega) (g.make_api_params ms sc (if r < N then tools else none))
      have hcalls :
          (AIGenerator.generateLoop g client tools (some tm) sc N (r :: rest) ms nc).1 =
          (AIGenerator.generateLoop g client tools (some tm) sc N rest
            (AIGenerator.process_tool_round ms resp tm) (nc + 1)).1 := by
        simp [AIGenerator.generateLoop, hcr, hstop]
      rw [hcalls]
      refine ih (AIGenerator.process_tool_round ms resp tm) (nc + 1) j
        (by simpa using hj) ?_ ?_
      · intro n hn req
        exact hok n (by omega) req
      · intro req
        have : nc + 1 + j = nc + (j + 1) := by omega
        rw [this]
        exact herr req

/-- C2: if the model collaborator raises at any round — the final
synthesis call included — `generate_response` returns a string that
contains the fixed apology phrase and the underlying error text.  The
embedding of `generate_response` is a total function into `String`, so
no exception escapes to the caller by construction. -/
theorem C2_model_error_containment (g : AIGenerator) (client : Client) (query : String)
    (ch : Option String) (tools : Option (List ToolSchema)) (tm : ToolManager)
    (N j : Nat) (e : Err) (hj : j ≤ N)
    (hok : ∀ n, n < j → ∀ req, ∃ r, client n req = Except.ok r ∧ r.stop_reason = "tool_use")
    (herr : ∀ req, client j req = Except.error e) :
    containsStr (g.generate_response client query ch tools (some tm) N) APOLOGY_PHRASE ∧
    containsStr (g.generate_response client query ch tools (some tm) N) e := by
  have h := generateLoop_client_error g client tools tm
    (AIGenerator.build_system_content ch) N e (List.range' 1 N)
    [{ role := "user", content := MessageContent.text query }] 0 j
    (by simpa using hj) (by simpa using hok) (by simpa using herr)
  have hP : APOLOGY_PROCESSING = APOLOGY_PHRASE ++ "processing your request: " := by decide
  have hF : APOLOGY_FINAL = APOLOGY_PHRASE ++ "providing my final response: " := by decide
  have hg : g.generate_response client query ch tools (some tm) N =
      (AIGenerator.generateLoop g client tools (some tm)
        (AIGenerator.build_system_content ch) N (List.range' 1 N)
        [{ role := "user", content := MessageContent.text query }] 0).1 := rfl
  rw [hg]
  rcases h with h | h <;> rw [h]
  · exact ⟨containsStr_append_of_head_eq _ _ _ hP e, containsStr_append_right _ e⟩
  · exact ⟨containsStr_append_of_head_eq _ _ _ hF e, containsStr_append_right _ e⟩

/-- Witness for C2: the collaborator succeeds with a tool-use response
at round 1 and raises at round 2 of a two-round query. -/
theorem C2_witness :
    containsStr
      ((AIGenerator.mk "m").generate_response
        (fun n _ => if n < 1 then Except.ok respTwoTools else Except.error "boom")
        "q" none (some ["t"]) (some tmOk) 2)
      APOLOGY_PHRASE ∧
    containsStr
      ((AIGenerator.mk "m").generate_response
        (fun n _ => if n < 1 then Except.ok respTwoTools else Except.error "boom")
        "q" none (some ["t"]) (some tmOk) 2)
      "boom" :=
  C2_model_error_containment (AIGenerator.mk "m") _ "q" none (some ["t"]) tmOk 2 1 "boom"
    (by decide)
    (fun n hn req => by
      have hn0 : n = 0 := by omega
      subst hn0
      exact ⟨respTwoTools, rfl, rfl⟩)
    (fun req => rfl)

/-! ### Shape of every request issued by the loop -/

/-- What `_make_api_call` guarantees about any request it sends: the
pre-built base parameters, the given system content, and either no
tool keys at all or exactly the supplied schemas with the auto tool
choice (the latter only when the schema list is truthy). -/
def requestWellFormed (g : AIGenerator) (sc : String) (tools : Option (List ToolSchema))
    (req : ApiRequest) : Prop :=
  req.model = g.model ∧ req.temperature = 0 ∧ req.max_tokens = 800 ∧ req.system = sc ∧
  ((req.tools = none ∧ req.tool_choice = none) ∨
   (req.tools = tools ∧ req.tool_choice = some "auto" ∧ listTruthy tools = true))

lemma make_api_params_wellFormed (g : AIGenerator) (ms : List Message) (sc : String)
    (tools targ : Option (List ToolSchema)) (h : targ = tools ∨ targ = none) :
    requestWellFormed g sc tools (g.make_api_params ms sc targ) := by
  rcases h with rfl | rfl
  · by_cases ht : listTruthy targ = true
    · exact ⟨rfl, rfl, rfl, rfl,
        Or.inr ⟨by simp [AIGenerator.make_api_params, ht],
                by simp [AIGenerator.make_api_params, ht], ht⟩⟩
    · exact ⟨rfl, rfl, rfl, rfl,
        Or.inl ⟨by simp [AIGenerator.make_api_params, ht],
                by simp [AIGenerator.make_api_params, ht]⟩⟩
  · exact ⟨rfl, rfl, rfl, rfl,
      Or.inl ⟨by simp [AIGenerator.make_api_params, listTruthy],
              by simp [AIGenerator.make_api_params, listTruthy]⟩⟩

lemma if_targ_cases (tools : Option (List ToolSchema)) (c : Prop) [Decidable c] :
    (if c then tools else none) = tools ∨ (if c then tools else none) = none := by
  split
  · exact Or.inl rfl
  · exact Or.inr rfl

lemma generateLoop_calls_wellFormed (g : AIGenerator) (client : Client)
    (tools : Option (List ToolSchema)) (tmOpt : Option ToolManager) (sc : String) (N : Nat) :
    ∀ (rs : List Nat) (ms : List Message) (nc : Nat),
    ∀ req ∈ (AIGenerator.generateLoop g client tools tmOpt sc N rs ms nc).2.calls,
      requestWellFormed g sc tools req := by
  intro rs
  induction rs with
  | nil =>
    intro ms nc req hreq
    rcases hc : client nc (g.make_api_params ms sc none) with e | resp <;>
      simp only [AIGenerator.generateLoop, hc] at hreq
    · rw [List.mem_singleton] at hreq
      subst hreq
      exact make_api_params_wellFormed g ms sc tools none (Or.inr rfl)
    · rcases hf : firstText resp with e | t <;> simp only [hf, List.mem_singleton] at hreq <;>
        (subst hreq; exact make_api_params_wellFormed g ms sc tools none (Or.inr rfl))
  | cons r rest ih =>
    intro ms nc req hreq
    rcases hc : client nc (g.make_api_params ms sc (if r < N then tools else none))
        with e | resp <;>
      simp only [AIGenerator.generateLoop, hc] at hreq
    · rw [List.mem_singleton] at hreq
      subst hreq
      exact make_api_params_wellFormed g ms sc tools _ (if_targ_cases tools _)
    · rcases tmOpt with _ | tm
      · rcases hf : firstText resp with e | t <;> simp only [hf, List.mem_singleton] at hreq <;>
          (subst hreq; exact make_api_params_wellFormed g ms sc tools _ (if_targ_cases tools _))
      · by_cases hstop : resp.stop_reason = "tool_use"
        · simp only [hstop, if_pos, if_true, eq_self_iff_true, List.mem_cons] at hreq
          rcases hreq with rfl | hreq
          · exact make_api_params_wellFormed g ms sc tools _ (if_targ_cases tools _)
          · exact ih _ _ req hreq
        · simp only [if_neg hstop] at hreq
          rcases hf : firstText resp with e | t <;>
            simp only [hf, List.mem_singleton] at hreq <;>
            (subst hreq; exact make_api_params_wellFormed g ms sc tools _ (if_targ_cases tools _))

/-- The transcript threading of `generate_response`: the first request
carries the seeded transcript (one user message with the query), and
every later request carries the transcript of the previous request
extended by the assistant message of the intervening tool round and,
when that round collected tool results, one user message bundling
exactly the results recorded for the round — so each issued request
carries the transcript accumulated by the loop at that call. -/
def transcriptChain : List Message → List ApiRequest → List (List ToolResult) → Prop
  | _, [], rounds => rounds = []
  | prev, req :: more, rounds =>
    req.messages = prev ∧
    ((more = [] ∧ rounds = []) ∨
      ∃ (c : List ContentBlock) (tr : List ToolResult) (rounds2 : List (List ToolResult)),
        rounds = tr :: rounds2 ∧
        transcriptChain
          (prev ++ [{ role := "assistant", content := MessageContent.blocks c }] ++
            (if tr.isEmpty then []
             else [{ role := "user", content := MessageContent.tool_results tr }]))
          more rounds2)

lemma generateLoop_nil_trace (g : AIGenerator) (client : Client)
    (tools : Option (List ToolSchema)) (tmOpt : Option ToolManager) (sc : String) (N : Nat)
    (ms : List Message) (nc : Nat) :
    (AIGenerator.generateLoop g client tools tmOpt sc N [] ms nc).2 =
      ⟨[g.make_api_params ms sc none], []⟩ := by
  rcases hc : client nc (g.make_api_params ms sc none) with e | resp
  · simp [AIGenerator.generateLoop, hc]
  · rcases hf : firstText resp with e | t <;> simp [AIGenerator.generateLoop, hc, hf]

lemma process_tool_round_shape (ms : List Message) (resp : ModelResponse)
    (tm : ToolManager) :
    AIGenerator.process_tool_round ms resp tm =
      ms ++ [{ role := "assistant", content := MessageContent.blocks resp.content }] ++
        (if (toolResultsOf tm resp.content).isEmpty then []
         else [{ role := "user",
                 content := MessageContent.tool_results (toolResultsOf tm resp.content) }]) := by
  rw [AIGenerator.process_tool_round]
  by_cases h : (toolResultsOf tm resp.content).isEmpty <;> simp [h]

lemma generateLoop_transcript (g : AIGenerator) (client : Client)
    (tools : Option (List ToolSchema)) (tmOpt : Option ToolManager) (sc : String) (N : Nat) :
    ∀ (rs : List Nat) (ms : List Message) (nc : Nat),
      transcriptChain ms
        ((AIGenerator.generateLoop g client tools tmOpt sc N rs ms nc).2.calls)
        ((AIGenerator.generateLoop g client tools tmOpt sc N rs ms nc).2.toolRounds) := by
  intro rs
  induction rs with
  | nil =>
    intro ms nc
    rw [generateLoop_nil_trace]
    exact ⟨rfl, Or.inl ⟨rfl, rfl⟩⟩
  | cons r rest ih =>
    intro ms nc
    rcases hc : client nc (g.make_api_params ms sc (if r < N then tools else none))
        with e | resp
    · have htr : (AIGenerator.generateLoop g client tools tmOpt sc N
          (r :: rest) ms nc).2 =
          ⟨[g.make_api_params ms sc (if r < N then tools else none)], []⟩ := by
        simp [AIGenerator.generateLoop, hc]
      rw [htr]
      exact ⟨rfl, Or.inl ⟨rfl, rfl⟩⟩
    · rcases tmOpt with _ | tm
      · have htr : (AIGenerator.generateLoop g client tools none sc N
            (r :: rest) ms nc).2 =
            ⟨[g.make_api_params ms sc (if r < N then tools else none)], []⟩ := by
          rcases hf : firstText resp with e | t <;>
            simp [AIGenerator.generateLoop, hc, hf]
        rw [htr]
        exact ⟨rfl, Or.inl ⟨rfl, rfl⟩⟩
      · by_cases hstop : resp.stop_reason = "tool_use"
        · have htr : (AIGenerator.generateLoop g client tools (some tm) sc N
              (r :: rest) ms nc).2 =
              ⟨g.make_api_params ms sc (if r < N then tools else none) ::
                  (AIGenerator.generateLoop g client tools (some tm) sc N rest
                    (AIGenerator.process_tool_round ms resp tm) (nc + 1)).2.calls,
                toolResultsOf tm resp.content ::
                  (AIGenerator.generateLoop g client tools (some tm) sc N rest
                    (AIGenerator.process_tool_round ms resp tm) (nc + 1)).2.toolRounds⟩ := by
            simp [AIGenerator.generateLoop, hc, hstop]
          rw [htr]
          refine ⟨rfl, Or.inr ⟨resp.content, toolResultsOf tm resp.content,
            (AIGenerator.generateLoop g client tools (some tm) sc N rest
              (AIGenerator.process_tool_round ms resp tm) (nc + 1)).2.toolRounds,
            rfl, ?_⟩⟩
          rw [← process_tool_round_shape]
          exact ih (AIGenerator.process_tool_round ms resp tm) (nc + 1)
        · have htr : (AIGenerator.generateLoop g client tools (some tm) sc N
              (r :: rest) ms nc).2 =
              ⟨[g.make_api_params ms sc (if r < N then tools else none)], []⟩ := by
            rcases hf : firstText resp with e | t <;>
              simp [AIGenerator.generateLoop, hc, hstop, hf]
          rw [htr]
          exact ⟨rfl, Or.inl ⟨rfl, rfl⟩⟩

/-- C8: every request handed to the model collaborator carries the
configured model id, temperature 0, 800 max output tokens, the system
prompt (fixed block, with the history appended after the separator
when a truthy history is supplied), either no tool keys at all or
exactly the supplied schemas together with the "auto" tool choice,
and the current transcript: the request messages follow the
transcript chain seeded with the query and grown per tool round. -/
theorem C8_request_fields (g : AIGenerator) (client : Client) (query : String)
    (ch : Option String) (tools : Option (List ToolSchema)) (tmOpt : Option ToolManager)
    (N : Nat) :
    (∀ req ∈ (g.generate_response_traced client query ch tools tmOpt N).2.calls,
      req.model = g.model ∧ req.temperature = 0 ∧ req.max_tokens = 800 ∧
      req.system = (if strTruthy ch then
          AIGenerator.SYSTEM_PROMPT ++ "\n\nPrevious conversation:\n" ++ ch.getD ""
        else AIGenerator.SYSTEM_PROMPT) ∧
      ((req.tools = none ∧ req.tool_choice = none) ∨
       (req.tools = tools ∧ req.tool_choice = some "auto"))) ∧
    transcriptChain [{ role := "user", content := MessageContent.text query }]
      ((g.generate_response_traced client query ch tools tmOpt N).2.calls)
      ((g.generate_response_traced client query ch tools tmOpt N).2.toolRounds) := by
  constructor
  · intro req hreq
    have hreq2 : req ∈ (AIGenerator.generateLoop g client tools tmOpt
        (AIGenerator.build_system_content ch) N (List.range' 1 N)
        [{ role := "user", content := MessageContent.text query }] 0).2.calls := hreq
    obtain ⟨h1, h2, h3, h4, h5⟩ :=
      generateLoop_calls_wellFormed g client tools tmOpt
        (AIGenerator.build_system_content ch) N (List.range' 1 N) _ 0 req hreq2
    refine ⟨h1, h2, h3, ?_, ?_⟩
    · rw [h4]
      rfl
    · rcases h5 with h5 | ⟨ha, hb, _⟩
      · exact Or.inl h5
      · exact Or.inr ⟨ha, hb⟩
  · exact generateLoop_transcript g client tools tmOpt
      (AIGenerator.build_system_content ch) N (List.range' 1 N)
      [{ role := "user", content := MessageContent.text query }] 0

/-- A collaborator returning one fixed non-tool response, for
witnesses. -/
def clientPlain : Client :=
  fun _ _ => Except.ok ⟨"end_turn", [ContentBlock.text "answer"]⟩

/-- The trace of a concrete one-call query with history supplied, for
the C8 witness. -/
def traceC8 : Trace :=
  ((AIGenerator.mk "model-id").generate_response_traced clientPlain "q" (some "hist")
    (some ["t"]) (some tmOk) 2).2

/-- The first (and only) request of that query. -/
def reqC8 : ApiRequest := traceC8.calls.get ⟨0, by decide⟩

/-- Witness for C8: the single request of a plain one-call query with
history supplied, and the transcript chain of that query. -/
theorem C8_witness :
    (reqC8.model = (AIGenerator.mk "model-id").model ∧
      reqC8.temperature = 0 ∧
      reqC8.max_tokens = 800 ∧
      reqC8.system = (if strTruthy (some "hist") then
          AIGenerator.SYSTEM_PROMPT ++ "\n\nPrevious conversation:\n" ++ (some "hist").getD ""
        else AIGenerator.SYSTEM_PROMPT) ∧
      ((reqC8.tools = none ∧ reqC8.tool_choice = none) ∨
       (reqC8.tools = some ["t"] ∧ reqC8.tool_choice = some "auto"))) ∧
    transcriptChain [{ role := "user", content := MessageContent.text "q" }]
      traceC8.calls traceC8.toolRounds :=
  ⟨(C8_request_fields (AIGenerator.mk "model-id") clientPlain "q" (some "hist")
      (some ["t"]) (some tmOk) 2).1 reqC8 (List.get_mem traceC8.calls 0 (by decide)),
   (C8_request_fields (AIGenerator.mk "model-id") clientPlain "q" (some "hist")
      (some ["t"]) (some tmOk) 2).2⟩

/-! ### Empty tool list behaves as no tool list (C10) -/

lemma make_api_params_empty_tools (g : AIGenerator) (ms : List Message) (sc : String) :
    g.make_api_params ms sc (some ([] : List ToolSchema)) = g.make_api_params ms sc none := by
  simp [AIGenerator.make_api_params, listTruthy]

lemma generateLoop_empty_tools (g : AIGenerator) (client : Client)
    (tmOpt : Option ToolManager) (sc : String) (N : Nat) :
    ∀ (rs : List Nat) (ms : List Message) (nc : Nat),
    AIGenerator.generateLoop g client (some []) tmOpt sc N rs ms nc =
      AIGenerator.generateLoop g client none tmOpt sc N rs ms nc := by
  intro rs
  induction rs with
  | nil =>
    intro ms nc
    simp [AIGenerator.generateLoop]
  | cons r rest ih =>
    intro ms nc
    have hreq : g.make_api_params ms sc (if r < N then some ([] : List ToolSchema) else none) =
        g.make_api_params ms sc (if r < N then (none : Option (List ToolSchema)) else none) := by
      split
      · exact make_api_params_empty_tools g ms sc
      · rfl
    simp only [AIGenerator.generateLoop, hreq]
    rcases hc : client nc (g.make_api_params ms sc
        (if r < N then (none : Option (List ToolSchema)) else none)) with e | resp
    · rfl
    · rcases tmOpt with _ | tm
      · rfl
      · by_cases hstop : resp.stop_reason = "tool_use"
        · simp only [hstop, if_true, eq_self_iff_true, ih]
        · simp only [if_neg hstop]

/-- C10: calling `generate_response` with an empty tool list behaves
exactly as calling it with no tool list: the whole traced execution is
identical, and every issued request omits the tool-schema and
tool-choice fields. -/
theorem C10_empty_tool_list (g : AIGenerator) (client : Client) (query : String)
    (ch : Option String) (tmOpt : Option ToolManager) (N : Nat) :
    g.generate_response_traced client query ch (some []) tmOpt N =
      g.generate_response_traced client query ch none tmOpt N ∧
    ∀ req ∈ (g.generate_response_traced client query ch (some []) tmOpt N).2.calls,
      req.tools = none ∧ req.tool_choice = none := by
  constructor
  · exact generateLoop_empty_tools g client tmOpt (AIGenerator.build_system_content ch) N
      (List.range' 1 N) [{ role := "user", content := MessageContent.text query }] 0
  · intro req hreq
    have hreq2 : req ∈ (AIGenerator.generateLoop g client (some []) tmOpt
        (AIGenerator.build_system_content ch) N (List.range' 1 N)
        [{ role := "user", content := MessageContent.text query }] 0).2.calls := hreq
    obtain ⟨_, _, _, _, h5⟩ :=
      generateLoop_calls_wellFormed g client (some []) tmOpt
        (AIGenerator.build_system_content ch) N (List.range' 1 N) _ 0 req hreq2
    rcases h5 with h5 | ⟨_, _, htr⟩
    · exact h5
    · simp [listTruthy] at htr

/-- A collaborator that always asks for tools, for witnesses and the
C1 counterexample. -/
def clientAlwaysTool : Client := fun _ _ => Except.ok respTwoTools

/-- Witness for the per-request part of C10, on a run whose model keeps
requesting tools. -/
theorem C10_witness :
    ((AIGenerator.mk "m").generate_response_traced clientAlwaysTool "q" none (some [])
        (some tmOk) 2 =
      (AIGenerator.mk "m").generate_response_traced clientAlwaysTool "q" none none
        (some tmOk) 2) ∧
    (((AIGenerator.mk "m").generate_response_traced clientAlwaysTool "q" none (some [])
        (some tmOk) 2).2.calls.get ⟨0, by decide⟩).tools = none ∧
    (((AIGenerator.mk "m").generate_response_traced clientAlwaysTool "q" none (some [])
        (some tmOk) 2).2.calls.get ⟨0, by decide⟩).tool_choice = none :=
  ⟨(C10_empty_tool_list (AIGenerator.mk "m") clientAlwaysTool "q" none (some tmOk) 2).1,
   (C10_empty_tool_list (AIGenerator.mk "m") clientAlwaysTool "q" none (some tmOk) 2).2 _
     (List.get_mem _ 0 (by decide))⟩

/-! ### Tools are offered only while round < max_rounds (C4) -/

lemma make_api_params_tools_imp (g : AIGenerator) (ms : List Message) (sc : String)
    (tools : Option (List ToolSchema)) (c : Prop) [Decidable c]
    (h : (g.make_api_params ms sc (if c then tools else none)).tools ≠ none) : c := by
  by_cases hc : c
  · exact hc
  · exfalso
    apply h
    simp [hc, AIGenerator.make_api_params, listTruthy]

lemma generateLoop_tools_pos (g : AIGenerator) (client : Client)
    (tools : Option (List ToolSchema)) (tmOpt : Option ToolManager) (sc : String) (N : Nat) :
    ∀ (rs : List Nat) (ms : List Message) (nc : Nat) (i : Nat) (req : ApiRequest),
      (AIGenerator.generateLoop g client tools tmOpt sc N rs ms nc).2.calls[i]? = some req →
      req.tools ≠ none →
      ∃ hi : i < rs.length, rs.get ⟨i, hi⟩ < N := by
  intro rs
  induction rs with
  | nil =>
    intro ms nc i req hget hne
    exfalso
    apply hne
    have hsing : (AIGenerator.generateLoop g client tools tmOpt sc N [] ms nc).2.calls =
        [g.make_api_params ms sc none] := by
      rcases hc : client nc (g.make_api_params ms sc none) with e | resp
      · simp [AIGenerator.generateLoop, hc]
      · rcases hf : firstText resp with e | t <;> simp [AIGenerator.generateLoop, hc, hf]
    rw [hsing] at hget
    rcases i with _ | i
    · simp only [List.getElem?_cons_zero, Option.some.injEq] at hget
      subst hget
      simp [AIGenerator.make_api_params, listTruthy]
    · simp at hget
  | cons r rest ih =>
    intro ms nc i req hget hne
    rcases hc : client nc (g.make_api_params ms sc (if r < N then tools else none))
        with e | resp
    · have hcalls : (AIGenerator.generateLoop g client tools tmOpt sc N
          (r :: rest) ms nc).2.calls =
          [g.make_api_params ms sc (if r < N then tools else none)] := by
        simp [AIGenerator.generateLoop, hc]
      rw [hcalls] at hget
      rcases i with _ | i
      · simp only [List.getElem?_cons_zero, Option.some.injEq] at hget
        subst hget
        exact ⟨by simp, make_api_params_tools_imp g ms sc tools _ hne⟩
      · simp at hget
    · rcases tmOpt with _ | tm
      · have hcalls : (AIGenerator.generateLoop g client tools none sc N
            (r :: rest) ms nc).2.calls =
            [g.make_api_params ms sc (if r < N then tools else none)] := by
          rcases hf : firstText resp with e | t <;>
            simp [AIGenerator.generateLoop, hc, hf]
        rw [hcalls] at hget
        rcases i with _ | i
        · simp only [List.getElem?_cons_zero, Option.some.injEq] at hget
          subst hget
          exact ⟨by simp, make_api_params_tools_imp g ms sc tools _ hne⟩
        · simp at hget
      · by_cases hstop : resp.stop_reason = "tool_use"
        · have hcalls : (AIGenerator.generateLoop g client tools (some tm) sc N
              (r :: rest) ms nc).2.calls =
              g.make_api_params ms sc (if r < N then tools else none) ::
                (AIGenerator.generateLoop g client tools (some tm) sc N rest
                  (AIGenerator.process_tool_round ms resp tm) (nc + 1)).2.calls := by
            simp [AIGenerator.generateLoop, hc, hstop]
          rw [hcalls] at hget
          rcases i with _ | i
          · simp only [List.getElem?_cons_zero, Option.some.injEq] at hget
            subst hget
            exact ⟨by simp, make_api_params_tools_imp g ms sc tools _ hne⟩
          · simp only [List.getElem?_cons_succ] at hget
            obtain ⟨hi, hlt⟩ := ih _ _ i req hget hne
            exact ⟨by simpa using Nat.succ_lt_succ hi, hlt⟩
        · have hcalls : (AIGenerator.generateLoop g client tools (some tm) sc N
              (r :: rest) ms nc).2.calls =
              [g.make_api_params ms sc (if r < N then tools else none)] := by
            rcases hf : firstText resp with e | t <;>
              simp [AIGenerator.generateLoop, hc, hstop, hf]
          rw [hcalls] at hget
          rcases i with _ | i
          · simp only [List.getElem?_cons_zero, Option.some.injEq] at hget
            subst hget
            exact ⟨by simp, make_api_params_tools_imp g ms sc tools _ hne⟩
          · simp at hget

/-- C4: tool schemas are passed to the collaborator only on rounds
with round < max_rounds: if the request at position i of the trace of a query
 carries tools, then it belongs to round i+1 and i+1 < N.  In
particular the call of the last configured round (position N-1) and the
final synthesis call (position N) carry no tools. -/
theorem C4_last_round_tool_free (g : AIGenerator) (client : Client) (query : String)
    (ch : Option String) (tools : Option (List ToolSchema)) (tmOpt : Option ToolManager)
    (N : Nat) :
    ∀ (i : Nat) (req : ApiRequest),
      ((g.generate_response_traced client query ch tools tmOpt N).2.calls)[i]? = some req →
      req.tools ≠ none → i + 1 < N := by
  intro i req hget hne
  have hget2 : (AIGenerator.generateLoop g client tools tmOpt
      (AIGenerator.build_system_content ch) N (List.range' 1 N)
      [{ role := "user", content := MessageContent.text query }] 0).2.calls[i]? =
      some req := hget
  obtain ⟨hi, hlt⟩ := generateLoop_tools_pos g client tools tmOpt
    (AIGenerator.build_system_content ch) N (List.range' 1 N) _ 0 i req hget2 hne
  have hval : (List.range' 1 N).get ⟨i, hi⟩ = 1 + i := by
    simp
  rw [hval] at hlt
  omega

/-- Trace of a two-round always-tool-requesting query, for the C4
witness. -/
def traceC4 : Trace :=
  ((AIGenerator.mk "m").generate_response_traced clientAlwaysTool "q" none (some ["t"])
    (some tmOk) 2).2

/-- Its first request (round 1, tools offered). -/
def reqC4 : ApiRequest := traceC4.calls.get ⟨0, by decide⟩

/-- Witness for C4: round 1 of a two-round query carries tools, and
indeed 0 + 1 < 2. -/
theorem C4_witness :
    traceC4.calls[0]? = some reqC4 ∧ reqC4.tools ≠ none ∧ 0 + 1 < 2 :=
  ⟨List.getElem?_eq_getElem (by decide), by decide,
   C4_last_round_tool_free (AIGenerator.mk "m") clientAlwaysTool "q" none (some ["t"])
     (some tmOk) 2 0 reqC4 (List.getElem?_eq_getElem (by decide)) (by decide)⟩

/-! ### The round budget under an always-tool-requesting model (C1) -/

lemma generateLoop_all_tool_use (g : AIGenerator) (client : Client)
    (tools : Option (List ToolSchema)) (tm : ToolManager) (sc : String) (N : Nat)
    (htools : listTruthy tools = true)
    (hclient : ∀ n req, ∃ r, client n req = Except.ok r ∧ r.stop_reason = "tool_use") :
    ∀ (L k : Nat) (ms : List Message) (nc : Nat), N ≤ k + L →
    (AIGenerator.generateLoop g client tools (some tm) sc N
        (List.range' k L) ms nc).2.calls.length = L + 1 ∧
    (AIGenerator.generateLoop g client tools (some tm) sc N
        (List.range' k L) ms nc).2.toolRounds.length = L ∧
    ∀ i, i ≤ L →
      ((AIGenerator.generateLoop g client tools (some tm) sc N
          (List.range' k L) ms nc).2.calls[i]?).map (fun req => req.tools.isSome) =
        some (decide (k + i < N)) := by
  intro L
  induction L with
  | zero =>
    intro k ms nc hNk
    obtain ⟨resp, hcr, _⟩ := hclient nc (g.make_api_params ms sc none)
    have htr : (AIGenerator.generateLoop g client tools (some tm) sc N
        (List.range' k 0) ms nc).2 = ⟨[g.make_api_params ms sc none], []⟩ := by
      rcases hf : firstText resp with e | t <;>
        simp [AIGenerator.generateLoop, hcr, hf]
    rw [htr]
    refine ⟨rfl, rfl, ?_⟩
    intro i hi
    have hi0 : i = 0 := by omega
    subst hi0
    have hknot : ¬(k + 0 < N) := by omega
    simp [AIGenerator.make_api_params, listTruthy, hknot]
    omega
  | succ L ih =>
    intro k ms nc hNk
    obtain ⟨resp, hcr, hstop⟩ :=
      hclient nc (g.make_api_params ms sc (if k < N then tools else none))
    obtain ⟨ih1, ih2, ih3⟩ :=
      ih (k + 1) (AIGenerator.process_tool_round ms resp tm) (nc + 1) (by omega)
    have htr : (AIGenerator.generateLoop g client tools (some tm) sc N
        (List.range' k (L + 1)) ms nc).2 =
        ⟨g.make_api_params ms sc (if k < N then tools else none) ::
            (AIGenerator.generateLoop g client tools (some tm) sc N
              (List.range' (k + 1) L) (AIGenerator.process_tool_round ms resp tm)
              (nc + 1)).2.calls,
          toolResultsOf tm resp.content ::
            (AIGenerator.generateLoop g client tools (some tm) sc N
              (List.range' (k + 1) L) (AIGenerator.process_tool_round ms resp tm)
              (nc + 1)).2.toolRounds⟩ := by
      rw [List.range'_succ]
      simp [AIGenerator.generateLoop, hcr, hstop]
    rw [htr]
    refine ⟨by simp [ih1], by simp [ih2], ?_⟩
    intro i hi
    rcases i with _ | i
    · by_cases hk : k < N
      · rcases tools with _ | l
        · simp [listTruthy] at htools
        · simp [AIGenerator.make_api_params, hk, htools]
      · simp [AIGenerator.make_api_params, listTruthy, hk]
    · have := ih3 i (by omega)
      have harith : k + 1 + i = k + (i + 1) := by omega
      rw [harith] at this
      simpa using this

/-- C1 (amended): for max_rounds = N ≥ 1, a model that requests a tool
on every call, a truthy tool list and a tool executor, the loop makes
N + 1 model calls in total: the first N - 1 carry tools, the round-N
call and the final synthesis call do not, and tool rounds are
processed exactly N times (so tool executions occur in at most N
rounds). -/
theorem C1_round_budget (g : AIGenerator) (client : Client) (query : String)
    (ch : Option String) (tools : Option (List ToolSchema)) (tm : ToolManager)
    (N : Nat) (hN : 1 ≤ N) (htools : listTruthy tools = true)
    (hclient : ∀ n req, ∃ r, client n req = Except.ok r ∧ r.stop_reason = "tool_use") :
    (g.generate_response_traced client query ch tools (some tm) N).2.calls.length = N + 1 ∧
    (g.generate_response_traced client query ch tools (some tm) N).2.toolRounds.length = N ∧
    ∀ i, i ≤ N →
      (((g.generate_response_traced client query ch tools (some tm) N).2.calls[i]?).map
        (fun req => req.tools.isSome)) = some (decide (i + 1 < N)) := by
  obtain ⟨h1, h2, h3⟩ := generateLoop_all_tool_use g client tools tm
    (AIGenerator.build_system_content ch) N htools hclient N 1
    [{ role := "user", content := MessageContent.text query }] 0 (by omega)
  refine ⟨h1, h2, ?_⟩
  intro i hi
  have h4 := h3 i hi
  have hdec : decide (1 + i < N) = decide (i + 1 < N) := by
    apply decide_eq_decide.mpr
    omega
  rw [hdec] at h4
  exact h4

/-- Witness for C1 (amended) at N = 2: three calls, two processed tool
rounds, round 1 tool-enabled. -/
theorem C1_witness :
    ((AIGenerator.mk "m").generate_response_traced clientAlwaysTool "q" none (some ["t"])
        (some tmOk) 2).2.calls.length = 2 + 1 ∧
    ((AIGenerator.mk "m").generate_response_traced clientAlwaysTool "q" none (some ["t"])
        (some tmOk) 2).2.toolRounds.length = 2 ∧
    ((((AIGenerator.mk "m").generate_response_traced clientAlwaysTool "q" none (some ["t"])
        (some tmOk) 2).2.calls[0]?).map (fun req => req.tools.isSome)) =
      some (decide (0 + 1 < 2)) :=
  ⟨(C1_round_budget (AIGenerator.mk "m") clientAlwaysTool "q" none (some ["t"]) tmOk 2
      (by decide) (by decide) (fun n req => ⟨respTwoTools, rfl, rfl⟩)).1,
   (C1_round_budget (AIGenerator.mk "m") clientAlwaysTool "q" none (some ["t"]) tmOk 2
      (by decide) (by decide) (fun n req => ⟨respTwoTools, rfl, rfl⟩)).2.1,
   (C1_round_budget (AIGenerator.mk "m") clientAlwaysTool "q" none (some ["t"]) tmOk 2
      (by decide) (by decide) (fun n req => ⟨respTwoTools, rfl, rfl⟩)).2.2 0 (by decide)⟩

/-- Counterexample to C1 as stated: with max_rounds = 1, a model that
requests a tool on every call and a supplied executor, the code makes
0 tool-enabled calls (not the claimed exactly 1 = N), because tools
are offered only while round < max_rounds; the 2 calls made (round 1
and the final synthesis) are both tool-free. -/
theorem C1_counterexample :
    ((AIGenerator.mk "m").generate_response_traced clientAlwaysTool "q" none (some ["t"])
        (some tmOk) 1).2.calls.countP (fun req => req.tools.isSome) = 0 ∧
    ((AIGenerator.mk "m").generate_response_traced clientAlwaysTool "q" none (some ["t"])
        (some tmOk) 1).2.calls.length = 2 := by
  decide

end RagOrch
